import Mathlib

/-!
Verification of the `rccheck` public-key-pinned certificate verifier
(`src/rccheck/src/lib.rs`).

The Rust code is a thin wrapper around external PKI collaborators
(`x509_parser`, `webpki`, `rustls`).  We embed the wrapper faithfully:

* the error vocabularies (`rustls::Error`, `webpki::Error`) become inductive
  types;
* the wrapper functions `pki_error`, `prepare_for_self_signed`,
  `verify_client_cert`, `verify_server_cert` and the capability flags are
  translated directly from the source;
* the external PKI capabilities (certificate parsing, chain verification,
  DNS-name parsing, time conversion) are out of scope for the repository and
  are passed in as an explicit environment (`PkiEnv`) of functions, so that
  every theorem about the wrapper quantifies over all possible behaviors of
  the external libraries;
* the DER `SubjectPublicKeyInfo` parser used by the serde glue is modelled
  from the spec (it lives in the external `x509_parser` crate).
-/

namespace Rccheck

/-- The subset of `rustls::Error` constructed by the code under verification.
`InvalidCertificateData` carries its diagnostic message, as in the source. -/
inductive RustlsError where
  | InvalidCertificateEncoding
  | InvalidCertificateSignature
  | InvalidCertificateSignatureType
  | InvalidCertificateData (msg : String)
  | FailedToGetCurrentTime
  | UnsupportedNameType
deriving DecidableEq, Repr

/-- `webpki::Error` (webpki 0.22): every variant of the external PKI error
vocabulary, so that `pki_error` is total on it exactly as in the source. -/
inductive WebpkiError where
  | BadDer
  | BadDerTime
  | CaUsedAsEndEntity
  | CertExpired
  | CertNotValidForName
  | CertNotValidYet
  | EndEntityUsedAsCa
  | ExtensionValueInvalid
  | InvalidCertValidity
  | InvalidSignatureForPublicKey
  | NameConstraintViolation
  | PathLenConstraintViolated
  | SignatureAlgorithmMismatch
  | RequiredEkuNotFound
  | UnknownIssuer
  | UnsupportedCertVersion
  | UnsupportedCriticalExtension
  | UnsupportedSignatureAlgorithm
  | UnsupportedSignatureAlgorithmForPublicKey
deriving DecidableEq, Repr

/-- The `Display` rendering of a `webpki::Error` (webpki renders the variant
name), used by `pki_error` when it embeds the underlying cause. -/
def WebpkiError.display : WebpkiError → String
  | .BadDer => "BadDer"
  | .BadDerTime => "BadDerTime"
  | .CaUsedAsEndEntity => "CaUsedAsEndEntity"
  | .CertExpired => "CertExpired"
  | .CertNotValidForName => "CertNotValidForName"
  | .CertNotValidYet => "CertNotValidYet"
  | .EndEntityUsedAsCa => "EndEntityUsedAsCa"
  | .ExtensionValueInvalid => "ExtensionValueInvalid"
  | .InvalidCertValidity => "InvalidCertValidity"
  | .InvalidSignatureForPublicKey => "InvalidSignatureForPublicKey"
  | .NameConstraintViolation => "NameConstraintViolation"
  | .PathLenConstraintViolated => "PathLenConstraintViolated"
  | .SignatureAlgorithmMismatch => "SignatureAlgorithmMismatch"
  | .RequiredEkuNotFound => "RequiredEkuNotFound"
  | .UnknownIssuer => "UnknownIssuer"
  | .UnsupportedCertVersion => "UnsupportedCertVersion"
  | .UnsupportedCriticalExtension => "UnsupportedCriticalExtension"
  | .UnsupportedSignatureAlgorithm => "UnsupportedSignatureAlgorithm"
  | .UnsupportedSignatureAlgorithmForPublicKey =>
      "UnsupportedSignatureAlgorithmForPublicKey"

/-- Translation of `fn pki_error(error: webpki::Error) -> rustls::Error`
(src/rccheck/src/lib.rs lines 222-232). -/
def pki_error : WebpkiError → RustlsError
  | .BadDer | .BadDerTime => .InvalidCertificateEncoding
  | .InvalidSignatureForPublicKey => .InvalidCertificateSignature
  | .UnsupportedSignatureAlgorithm | .UnsupportedSignatureAlgorithmForPublicKey =>
      .InvalidCertificateSignatureType
  | e => .InvalidCertificateData ("invalid peer certificate: " ++ e.display)

/-! ## The key descriptor and its DER serialization

`Psk` wraps an `x509_parser::x509::SubjectPublicKeyInfo`: an algorithm
identifier, the public-key bit-string data, and the raw DER bytes the
structure was parsed from.  Derived structural equality compares all fields,
exactly as the derived `PartialEq` does in the source. -/

/-- `AlgorithmIdentifier`: an object identifier (content bytes of the OID) and
optional raw parameter bytes. -/
structure AlgorithmIdentifier where
  oid : List Nat
  params : Option (List Nat)
deriving DecidableEq, Repr

/-- `SubjectPublicKeyInfo`: algorithm identifier, public-key data (the bit
string with its unused-bits octet stripped), and the raw DER bytes consumed
when parsing it. -/
structure SubjectPublicKeyInfo where
  algorithm : AlgorithmIdentifier
  subject_public_key : List Nat
  raw : List Nat
deriving DecidableEq, Repr

/-- Big-endian value of a byte list (used for DER long-form lengths). -/
def beVal (l : List Nat) : Nat := l.foldl (fun a b => a * 256 + b) 0

/-- Modelled from the spec: DER length parsing, part of the external X.509
DER parsing capability ("fails with DecodeError if the bytes are not a
well-formed ASN.1 SubjectPublicKeyInfo structure").  Reads a DER length
(short form, or long form with a nonzero byte count) and returns the length
together with the bytes after the length octets. -/
def readLen : List Nat → Option (Nat × List Nat)
  | [] => none
  | b :: bs =>
    if b < 128 then some (b, bs)
    else if b = 128 then none
    else if bs.length < b - 128 then none
    else some (beVal (bs.take (b - 128)), bs.drop (b - 128))

/-- Modelled from the spec: DER tag-length-value parsing.  Returns the tag,
the content octets, and the unconsumed remainder. -/
def readTLV (l : List Nat) : Option (Nat × List Nat × List Nat) :=
  match l with
  | [] => none
  | t :: rest =>
    match readLen rest with
    | none => none
    | some (len, rest2) =>
      if rest2.length < len then none
      else some (t, rest2.take len, rest2.drop len)

/-- Modelled from the spec: parsing of the content octets of a
`SubjectPublicKeyInfo` SEQUENCE: an `AlgorithmIdentifier` SEQUENCE holding an
OID and optional parameters, followed by a BIT STRING whose first content
octet is the unused-bits count; nothing may follow the bit string. -/
def parseSpkiContent (content : List Nat) : Option (AlgorithmIdentifier × List Nat) :=
  match readTLV content with
  | none => none
  | some (ta, algContent, r1) =>
    if ta ≠ 48 then none
    else
      match readTLV algContent with
      | none => none
      | some (toid, oidBytes, r2) =>
        if toid ≠ 6 then none
        else
          let paramsOpt : Option (Option (List Nat)) :=
            if r2 = [] then some none
            else match readTLV r2 with
              | some (_, _, []) => some (some r2)
              | _ => none
          match paramsOpt with
          | none => none
          | some params =>
            match readTLV r1 with
            | none => none
            | some (tb, bitContent, r3) =>
              if tb ≠ 3 then none
              else if r3 ≠ [] then none
              else match bitContent with
                | [] => none
                | _ :: key => some (⟨oidBytes, params⟩, key)

/-- Modelled from the spec: `SubjectPublicKeyInfo::from_der` of the external
`x509_parser` capability (spec section 6: `parse_certificate(der_bytes) ->
Result<Certificate, DecodeError>` and section 4.1).  On success it returns
the unconsumed remainder together with the parsed structure, whose `raw`
field records exactly the consumed bytes. -/
def SubjectPublicKeyInfo.from_der (input : List Nat) :
    Option (List Nat × SubjectPublicKeyInfo) :=
  match readTLV input with
  | none => none
  | some (t, content, rest) =>
    if t ≠ 48 then none
    else match parseSpkiContent content with
      | none => none
      | some (alg, key) =>
        some (rest, ⟨alg, key, input.take (input.length - rest.length)⟩)

/-- `Psk` (src/rccheck/src/lib.rs line 39): the expected-key descriptor,
wrapping a parsed `SubjectPublicKeyInfo`. -/
structure Psk where
  spki : SubjectPublicKeyInfo
deriving DecidableEq, Repr

/-- `impl Serialize for Psk` (lines 47-54): serializes as the raw DER bytes
of the wrapped `SubjectPublicKeyInfo`. -/
def Psk.serialize (p : Psk) : List Nat := p.spki.raw

/-- `impl Deserialize for Psk` via `DerBytesVisitor` (lines 56-89): parses
the byte string as a `SubjectPublicKeyInfo` (ignoring any unconsumed
remainder) and fails with a decode error otherwise. -/
def Psk.deserialize (b : List Nat) : Except String Psk :=
  match SubjectPublicKeyInfo.from_der b with
  | some (_, spki) => .ok ⟨spki⟩
  | none => .error "malformed Subject Public Key Info in DER format"

/-- A successful DER length parse splits its input into the consumed length
octets and the remainder, and reparsing the consumed octets before any other
tail yields the same length with that tail untouched. -/
theorem readLen_decomp (bs rest2 : List Nat) (len : Nat)
    (h : readLen bs = some (len, rest2)) :
    ∃ lb, bs = lb ++ rest2 ∧ ∀ tail, readLen (lb ++ tail) = some (len, tail) := by
  cases bs with
  | nil => simp [readLen] at h
  | cons b bs =>
    by_cases hb : b < 128
    · simp only [readLen, if_pos hb, Option.some.injEq, Prod.mk.injEq] at h
      obtain ⟨rfl, rfl⟩ := h
      exact ⟨[b], rfl, fun tail => by simp [readLen, if_pos hb]⟩
    · by_cases h128 : b = 128
      · simp [readLen, if_neg hb, h128] at h
      · by_cases hlt : bs.length < b - 128
        · simp [readLen, if_neg hb, if_neg h128, if_pos hlt] at h
        · simp only [readLen, if_neg hb, if_neg h128, if_neg hlt,
            Option.some.injEq, Prod.mk.injEq] at h
          obtain ⟨rfl, rfl⟩ := h
          have htk : (bs.take (b - 128)).length = b - 128 := by
            rw [List.length_take]; omega
          refine ⟨b :: bs.take (b - 128), by simp, fun tail => ?_⟩
          have hlen2 : ¬ (bs.take (b - 128) ++ tail).length < b - 128 := by
            rw [List.length_append, htk]; omega
          simp only [List.cons_append, readLen, if_neg hb, if_neg h128, if_neg hlen2]
          rw [List.take_left' htk, List.drop_left' htk]

/-- A successful TLV parse splits its input into a header-plus-content part
and the remainder, and reparsing that part before any other tail yields the
same tag and content with that tail untouched. -/
theorem readTLV_decomp (l c r : List Nat) (t : Nat)
    (h : readTLV l = some (t, c, r)) :
    ∃ hdr, l = hdr ++ (c ++ r) ∧
      ∀ tail, readTLV (hdr ++ (c ++ tail)) = some (t, c, tail) := by
  cases l with
  | nil => simp [readTLV] at h
  | cons t0 rest =>
    cases hl : readLen rest with
    | none => simp [readTLV, hl] at h
    | some p =>
      obtain ⟨len, rest2⟩ := p
      by_cases hlen : rest2.length < len
      · simp [readTLV, hl, hlen] at h
      · simp only [readTLV, hl, if_neg hlen, Option.some.injEq, Prod.mk.injEq] at h
        obtain ⟨rfl, rfl, rfl⟩ := h
        obtain ⟨lb, rfl, hread⟩ := readLen_decomp rest rest2 len hl
        have hc : (rest2.take len).length = len := by
          rw [List.length_take]; omega
        refine ⟨t0 :: lb, ?_, fun tail => ?_⟩
        · simp [List.append_assoc, List.take_append_drop]
        · have hread2 := hread (rest2.take len ++ tail)
          have hlen2 : (rest2.take len ++ tail).length = len + tail.length := by
            rw [List.length_append, hc]
          simp only [List.cons_append, List.append_assoc, readTLV, hread2, hlen2]
          rw [if_neg (by omega), List.take_left' hc, List.drop_left' hc]

/-- The `raw` field of a parsed `SubjectPublicKeyInfo` reparses to the same
structure with nothing left over. -/
theorem from_der_raw (input rest : List Nat) (s : SubjectPublicKeyInfo)
    (h : SubjectPublicKeyInfo.from_der input = some (rest, s)) :
    SubjectPublicKeyInfo.from_der s.raw = some ([], s) := by
  cases htlv : readTLV input with
  | none => simp [SubjectPublicKeyInfo.from_der, htlv] at h
  | some p =>
    obtain ⟨t, content, rest0⟩ := p
    simp only [SubjectPublicKeyInfo.from_der, htlv] at h
    by_cases ht : t = 48
    case neg => simp [ht] at h
    case pos =>
    subst ht
    rw [if_neg (by simp)] at h
    cases hps : parseSpkiContent content with
    | none => simp [hps] at h
    | some q =>
      obtain ⟨alg, key⟩ := q
      rw [hps] at h
      simp only [Option.some.injEq, Prod.mk.injEq] at h
      obtain ⟨rfl, rfl⟩ := h
      obtain ⟨hdr, rfl, hread⟩ := readTLV_decomp _ _ _ _ htlv
      have hraw : ((hdr ++ (content ++ rest0)).take
          ((hdr ++ (content ++ rest0)).length - rest0.length)) = hdr ++ content := by
        have hl : (hdr ++ (content ++ rest0)).length - rest0.length
            = (hdr ++ content).length := by
          simp only [List.length_append]
          omega
        rw [hl, ← List.append_assoc]
        exact List.take_left' rfl
      have hread0 := hread []
      rw [List.append_nil] at hread0
      simp only [hraw, SubjectPublicKeyInfo.from_der, hread0]
      rw [if_neg (by simp)]
      rw [hps]
      simp only [List.length_nil, Nat.sub_zero, List.take_length]

/-- C3: serializing a descriptor obtained by deserialization yields bytes
that deserialize back to an equal descriptor, and deserializing bytes that
are not a well-formed `SubjectPublicKeyInfo` fails with a decode error (the
embedding is total, so it never panics). -/
theorem psk_serde_roundtrip :
    (∀ b p, Psk.deserialize b = .ok p →
        Psk.deserialize (Psk.serialize p) = .ok p) ∧
    (∀ b, SubjectPublicKeyInfo.from_der b = none →
        Psk.deserialize b
          = .error "malformed Subject Public Key Info in DER format") := by
  constructor
  · intro b p h
    unfold Psk.deserialize at h
    cases hfd : SubjectPublicKeyInfo.from_der b with
    | none => rw [hfd] at h; cases h
    | some pr =>
      obtain ⟨rest, s⟩ := pr
      rw [hfd] at h
      obtain rfl : (⟨s⟩ : Psk) = p := by cases h; rfl
      have hr := from_der_raw b rest s hfd
      unfold Psk.deserialize Psk.serialize
      rw [hr]
  · intro b h
    unfold Psk.deserialize
    rw [h]

/-- A concrete Ed25519-shaped SPKI DER encoding: SEQUENCE of an algorithm
SEQUENCE holding a three-byte OID and a BIT STRING with one key byte. -/
def spkiBytes : List Nat := [48, 11, 48, 5, 6, 3, 43, 101, 112, 3, 2, 0, 170]

/-- The descriptor parsed from `spkiBytes`. -/
def pskEx : Psk := ⟨⟨⟨[43, 101, 112], none⟩, [170], spkiBytes⟩⟩

/-- Witness for C3: the round trip evaluated on `spkiBytes`, and failure on a
truncated input. -/
theorem psk_serde_roundtrip_witness :
    Psk.deserialize spkiBytes = .ok pskEx ∧
    Psk.deserialize (Psk.serialize pskEx) = .ok pskEx ∧
    Psk.deserialize [48]
      = .error "malformed Subject Public Key Info in DER format" :=
  ⟨rfl, psk_serde_roundtrip.1 spkiBytes pskEx rfl,
    psk_serde_roundtrip.2 [48] rfl⟩

/-! ## The two verification directions

The verifiers call external collaborators (`x509_parser` certificate
parsing, `webpki` end-entity/trust-anchor construction, chain verification,
DNS-name parsing, and `webpki::Time` conversion).  Those are bundled into a
`PkiEnv` of plain functions, so theorems about the wrapper quantify over
every possible behavior of the external libraries. -/

/-- The webpki signature-algorithm constants referenced by the code, plus
representatives of the unsupported ones (for example RSA PKCS#1). -/
inductive SignatureAlgorithm where
  | ECDSA_P256_SHA256
  | ECDSA_P256_SHA384
  | ECDSA_P384_SHA256
  | ECDSA_P384_SHA384
  | ED25519
  | RSA_PKCS1_2048_8192_SHA256
  | RSA_PKCS1_2048_8192_SHA384
  | RSA_PKCS1_2048_8192_SHA512
  | RSA_PKCS1_3072_8192_SHA384
deriving DecidableEq, Repr

/-- `SUPPORTED_SIG_ALGS` (src/rccheck/src/lib.rs line 21): the process-wide
constant allowlist, ECDSA-P256-SHA256 and Ed25519 only. -/
def SUPPORTED_SIG_ALGS : List SignatureAlgorithm :=
  [.ECDSA_P256_SHA256, .ED25519]

/-- The slice of `x509_parser::certificate::X509Certificate` the code reads:
its `public_key()` accessor. -/
structure X509Certificate where
  public_key : SubjectPublicKeyInfo
deriving DecidableEq, Repr

/-- `rustls::ServerName`: a DNS name or an IP address (the source matches
`DnsName` and treats every other form as unsupported). -/
inductive ServerName where
  | DnsName (name : String)
  | IpAddress (addr : String)
deriving DecidableEq, Repr

/-- The rendering of a `SubjectPublicKeyInfo` used in the key-mismatch
diagnostic (the source uses the derived Debug form; only the fact that the
message embeds both keys matters). -/
def spkiDebug (s : SubjectPublicKeyInfo) : String :=
  "SubjectPublicKeyInfo(alg=" ++ toString s.algorithm.oid
    ++ ", key=" ++ toString s.subject_public_key
    ++ ", raw=" ++ toString s.raw ++ ")"

/-- The key-mismatch diagnostic of lines 122-125 and 157-160: it carries the
observed key and then the expected key. -/
def keyMismatchMsg (observed expected : SubjectPublicKeyInfo) : String :=
  "invalid peer certificate: received " ++ spkiDebug observed
    ++ " instead of expected " ++ spkiDebug expected

/-- The external PKI capabilities consumed by the verifiers, as plain
functions.  `webpki::EndEntityCert` and `webpki::TrustAnchor` handles are
represented by the DER bytes they were built from.  `timeTryFrom` is
`webpki::Time::try_from` on a `SystemTime` (an `Int`, seconds relative to
the Unix epoch).  Chain verification takes the end-entity handle, the
supported algorithms, the trust anchors, the intermediate chain and the
time, in the argument order of the source call sites. -/
structure PkiEnv where
  x509CertFromDer : List Nat → Option (List Nat × X509Certificate)
  endEntityTryFrom : List Nat → Except WebpkiError Unit
  trustAnchorTryFromCertDer : List Nat → Except WebpkiError Unit
  timeTryFrom : Int → Option Nat
  verifyIsValidTlsClientCert :
    List Nat → List SignatureAlgorithm → List (List Nat) → List (List Nat) →
      Nat → Except WebpkiError Unit
  verifyIsValidTlsServerCert :
    List Nat → List SignatureAlgorithm → List (List Nat) → List (List Nat) →
      Nat → Except WebpkiError Unit
  dnsNameTryFromAsciiStr : String → Option String
  verifyIsValidForDnsName : List Nat → String → Except WebpkiError Unit

/-- `fn prepare_for_self_signed` (lines 207-220): build the end-entity
handle, collect the intermediates, and reinterpret the same end-entity bytes
as the sole trust anchor; both reinterpretation failures map through
`pki_error`. -/
def prepare_for_self_signed (env : PkiEnv) (end_entity : List Nat)
    (intermediates : List (List Nat)) :
    Except RustlsError (List Nat × List (List Nat) × List (List Nat)) :=
  match env.endEntityTryFrom end_entity with
  | .error e => .error (pki_error e)
  | .ok _ =>
    match env.trustAnchorTryFromCertDer end_entity with
    | .error e => .error (pki_error e)
    | .ok _ => .ok (end_entity, intermediates, [end_entity])

/-- `Psk::verify_client_cert` (lines 111-139): parse the end-entity
certificate, compare its public key with the expected descriptor, build the
self-signed trust inputs, convert the time, and run client-usage chain
verification over the supported algorithms. -/
def verify_client_cert (env : PkiEnv) (self : Psk) (end_entity : List Nat)
    (intermediates : List (List Nat)) (now : Int) :
    Except RustlsError Unit :=
  match env.x509CertFromDer end_entity with
  | none => .error .InvalidCertificateEncoding
  | some (_, cert) =>
    if cert.public_key ≠ self.spki then
      .error (.InvalidCertificateData (keyMismatchMsg cert.public_key self.spki))
    else
      match prepare_for_self_signed env end_entity intermediates with
      | .error e => .error e
      | .ok (certH, chain, trustroots) =>
        match env.timeTryFrom now with
        | none => .error .FailedToGetCurrentTime
        | some t =>
          match env.verifyIsValidTlsClientCert certH SUPPORTED_SIG_ALGS
              trustroots chain t with
          | .error e => .error (pki_error e)
          | .ok _ => .ok ()

/-- The trace messages emitted between chain verification and the DNS-name
binding check (lines 186-193): the SCT message when the iterator is empty,
and the OCSP message when the response bytes are nonempty.  Tracing is the
only use the source makes of those two inputs. -/
def serverTrace (scts : List (List Nat)) (ocsp_response : List Nat) : List String :=
  (if scts.isEmpty then ["Met unvalidated certificate transparency data"] else [])
    ++ (if ocsp_response ≠ [] then ["Unvalidated OCSP response"] else [])

/-- `Psk::verify_server_cert` (lines 143-198): the client-direction steps,
then the DNS-name form and syntax checks, server-usage chain verification,
the diagnostic-only SCT and OCSP traces, and the name-binding check.  The
second component collects the trace messages. -/
def verify_server_cert (env : PkiEnv) (self : Psk) (end_entity : List Nat)
    (intermediates : List (List Nat)) (server_name : ServerName)
    (scts : List (List Nat)) (ocsp_response : List Nat) (now : Int) :
    Except RustlsError Unit × List String :=
  match env.x509CertFromDer end_entity with
  | none => (.error .InvalidCertificateEncoding, [])
  | some (_, cert) =>
    if cert.public_key ≠ self.spki then
      (.error (.InvalidCertificateData (keyMismatchMsg cert.public_key self.spki)), [])
    else
      match prepare_for_self_signed env end_entity intermediates with
      | .error e => (.error e, [])
      | .ok (certH, chain, trustroots) =>
        match env.timeTryFrom now with
        | none => (.error .FailedToGetCurrentTime, [])
        | some webpki_now =>
          match server_name with
          | .IpAddress _ => (.error .UnsupportedNameType, [])
          | .DnsName dns_name =>
            match env.dnsNameTryFromAsciiStr dns_name with
            | none => (.error .UnsupportedNameType, [])
            | some dns_nameref =>
              match env.verifyIsValidTlsServerCert certH SUPPORTED_SIG_ALGS
                  trustroots chain webpki_now with
              | .error e => (.error (pki_error e), [])
              | .ok _ =>
                match env.verifyIsValidForDnsName certH dns_nameref with
                | .error e => (.error (pki_error e), serverTrace scts ocsp_response)
                | .ok _ => (.ok (), serverTrace scts ocsp_response)

/-- `offer_client_auth` (lines 98-100). -/
def offer_client_auth (_ : Psk) : Bool := true

/-- `client_auth_mandatory` (lines 102-104). -/
def client_auth_mandatory (_ : Psk) : Option Bool := some true

/-- `client_auth_root_subjects` (lines 106-109): no subjects can be
guaranteed before the certificate is seen. -/
def client_auth_root_subjects (_ : Psk) : Option (List (List Nat)) := none

/-- C2: `pki_error` is a total function on the PKI error vocabulary mapping
`BadDer` and `BadDerTime` to `InvalidCertificateEncoding`,
`InvalidSignatureForPublicKey` to `InvalidCertificateSignature`,
`UnsupportedSignatureAlgorithm` and
`UnsupportedSignatureAlgorithmForPublicKey` to
`InvalidCertificateSignatureType`, and every other error to
`InvalidCertificateData` with a message embedding the underlying cause. -/
theorem pki_error_mapping :
    pki_error .BadDer = .InvalidCertificateEncoding ∧
    pki_error .BadDerTime = .InvalidCertificateEncoding ∧
    pki_error .InvalidSignatureForPublicKey = .InvalidCertificateSignature ∧
    pki_error .UnsupportedSignatureAlgorithm = .InvalidCertificateSignatureType ∧
    pki_error .UnsupportedSignatureAlgorithmForPublicKey
      = .InvalidCertificateSignatureType ∧
    ∀ e : WebpkiError,
      e ∉ [WebpkiError.BadDer, .BadDerTime, .InvalidSignatureForPublicKey,
            .UnsupportedSignatureAlgorithm,
            .UnsupportedSignatureAlgorithmForPublicKey] →
      pki_error e
        = .InvalidCertificateData ("invalid peer certificate: " ++ e.display) := by
  refine ⟨rfl, rfl, rfl, rfl, rfl, ?_⟩
  intro e he
  cases e <;> simp_all [pki_error]

/-- Witness for C2: the remaining-cases clause evaluated at `CertExpired`. -/
theorem pki_error_mapping_witness :
    pki_error .CertExpired
      = .InvalidCertificateData "invalid peer certificate: CertExpired" :=
  pki_error_mapping.2.2.2.2.2 .CertExpired (by decide)

/-! ## Concrete fixtures used by the witnesses -/

/-- A certificate whose public key equals the `pskEx` descriptor. -/
def certEx : X509Certificate := ⟨pskEx.spki⟩

/-- A certificate whose public key differs from the `pskEx` descriptor. -/
def certOther : X509Certificate := ⟨⟨⟨[1], none⟩, [2], [3]⟩⟩

/-- A concrete environment: parsing yields `certEx`, handle construction and
chain verification succeed, times before the epoch fail to convert, and the
empty string fails DNS-name parsing. -/
def envEx : PkiEnv where
  x509CertFromDer := fun _ => some ([], certEx)
  endEntityTryFrom := fun _ => .ok ()
  trustAnchorTryFromCertDer := fun _ => .ok ()
  timeTryFrom := fun t => if t < 0 then none else some t.toNat
  verifyIsValidTlsClientCert := fun _ _ _ _ _ => .ok ()
  verifyIsValidTlsServerCert := fun _ _ _ _ _ => .ok ()
  dnsNameTryFromAsciiStr := fun s => if s = "" then none else some s
  verifyIsValidForDnsName := fun _ _ => .ok ()

/-! ## The remaining claims -/

/-- C1: whenever the parsed end-entity public key differs structurally from
the expected descriptor, both verifiers fail with the key-mismatch
`InvalidCertificateData` carrying the observed and the expected key.  The
chain-verification behavior is universally quantified (inside `env`), so the
mismatch decides the outcome before chain verification can succeed, however
well-formed or validly self-signed the certificate otherwise is. -/
theorem key_mismatch_rejected (env : PkiEnv) (self : Psk) (end_entity : List Nat)
    (intermediates : List (List Nat)) (server_name : ServerName)
    (scts : List (List Nat)) (ocsp : List Nat) (now : Int)
    (rem : List Nat) (cert : X509Certificate)
    (hparse : env.x509CertFromDer end_entity = some (rem, cert))
    (hne : cert.public_key ≠ self.spki) :
    verify_client_cert env self end_entity intermediates now
      = .error (.InvalidCertificateData
          (keyMismatchMsg cert.public_key self.spki)) ∧
    (verify_server_cert env self end_entity intermediates server_name
        scts ocsp now).1
      = .error (.InvalidCertificateData
          (keyMismatchMsg cert.public_key self.spki)) := by
  constructor
  · simp only [verify_client_cert, hparse, if_pos hne]
  · simp only [verify_server_cert, hparse, if_pos hne]

/-- Witness for C1: a mismatching certificate is rejected with the
key-mismatch diagnostic in the concrete environment. -/
theorem key_mismatch_rejected_witness :
    verify_client_cert
        { envEx with x509CertFromDer := fun _ => some ([], certOther) }
        pskEx [9] [] 5
      = .error (.InvalidCertificateData
          (keyMismatchMsg certOther.public_key pskEx.spki)) :=
  (key_mismatch_rejected
    { envEx with x509CertFromDer := fun _ => some ([], certOther) }
    pskEx [9] [] (.DnsName "a") [] [] 5 [] certOther rfl (by decide)).1

/-- C4: when the end-entity bytes do not parse as a DER X.509 certificate,
both verifiers return `InvalidCertificateEncoding`; the embedding is total,
so they never panic, and the error return means they never succeed. -/
theorem malformed_cert_rejected (env : PkiEnv) (self : Psk) (end_entity : List Nat)
    (intermediates : List (List Nat)) (server_name : ServerName)
    (scts : List (List Nat)) (ocsp : List Nat) (now : Int)
    (hparse : env.x509CertFromDer end_entity = none) :
    verify_client_cert env self end_entity intermediates now
      = .error .InvalidCertificateEncoding ∧
    (verify_server_cert env self end_entity intermediates server_name
        scts ocsp now).1
      = .error .InvalidCertificateEncoding := by
  constructor
  · simp only [verify_client_cert, hparse]
  · simp only [verify_server_cert, hparse]

/-- Witness for C4: a parse failure yields the encoding error. -/
theorem malformed_cert_rejected_witness :
    verify_client_cert { envEx with x509CertFromDer := fun _ => none }
        pskEx [0] [] 5
      = .error .InvalidCertificateEncoding :=
  (malformed_cert_rejected { envEx with x509CertFromDer := fun _ => none }
    pskEx [0] [] (.DnsName "a") [] [] 5 rfl).1

/-- C5: once the earlier steps pass (parse, key match, trust-input build,
time conversion), a claimed identity that is not a DNS name, or whose DNS
syntax fails to parse, makes `verify_server_cert` fail with
`UnsupportedNameType`. -/
theorem non_dns_name_rejected (env : PkiEnv) (self : Psk) (end_entity : List Nat)
    (intermediates : List (List Nat)) (scts : List (List Nat)) (ocsp : List Nat)
    (now : Int) (rem : List Nat) (cert : X509Certificate) (t : Nat)
    (hparse : env.x509CertFromDer end_entity = some (rem, cert))
    (hkey : cert.public_key = self.spki)
    (hee : env.endEntityTryFrom end_entity = .ok ())
    (hroot : env.trustAnchorTryFromCertDer end_entity = .ok ())
    (htime : env.timeTryFrom now = some t) :
    (∀ addr, (verify_server_cert env self end_entity intermediates
        (.IpAddress addr) scts ocsp now).1 = .error .UnsupportedNameType) ∧
    (∀ dns, env.dnsNameTryFromAsciiStr dns = none →
      (verify_server_cert env self end_entity intermediates
        (.DnsName dns) scts ocsp now).1 = .error .UnsupportedNameType) := by
  have hcond : ¬ cert.public_key ≠ self.spki := by simp [hkey]
  constructor
  · intro addr
    simp only [verify_server_cert, hparse, if_neg hcond,
      prepare_for_self_signed, hee, hroot, htime]
  · intro dns hdns
    simp only [verify_server_cert, hparse, if_neg hcond,
      prepare_for_self_signed, hee, hroot, htime, hdns]

/-- Witness for C5: an IP-address identity and an unparsable DNS name are
both rejected with `UnsupportedNameType` in the concrete environment. -/
theorem non_dns_name_rejected_witness :
    (verify_server_cert envEx pskEx [9] [] (.IpAddress "127.0.0.1")
        [] [] 5).1 = .error .UnsupportedNameType ∧
    (verify_server_cert envEx pskEx [9] [] (.DnsName "")
        [] [] 5).1 = .error .UnsupportedNameType :=
  ⟨(non_dns_name_rejected envEx pskEx [9] [] [] [] 5 [] certEx 5
      rfl rfl rfl rfl (by decide)).1 "127.0.0.1",
   (non_dns_name_rejected envEx pskEx [9] [] [] [] 5 [] certEx 5
      rfl rfl rfl rfl (by decide)).2 "" (by decide)⟩

/-- C6: the SCT list and the OCSP response bytes never influence the
accept/reject outcome of `verify_server_cert`: two calls identical except
for those two inputs return the same result.  (Only the trace component of
the embedding can differ.) -/
theorem sct_ocsp_do_not_affect_result (env : PkiEnv) (self : Psk)
    (end_entity : List Nat) (intermediates : List (List Nat))
    (server_name : ServerName) (now : Int)
    (scts1 scts2 : List (List Nat)) (ocsp1 ocsp2 : List Nat) :
    (verify_server_cert env self end_entity intermediates server_name
        scts1 ocsp1 now).1
      = (verify_server_cert env self end_entity intermediates server_name
        scts2 ocsp2 now).1 := by
  simp only [verify_server_cert]
  cases hp : env.x509CertFromDer end_entity with
  | none => simp only [hp]
  | some p =>
    obtain ⟨rem, cert⟩ := p
    simp only [hp]
    by_cases hk : cert.public_key ≠ self.spki
    · simp only [if_pos hk]
    · simp only [if_neg hk]
      cases hprep : prepare_for_self_signed env end_entity intermediates with
      | error e => simp only [hprep]
      | ok pr =>
        obtain ⟨certH, chain, troots⟩ := pr
        simp only [hprep]
        cases ht : env.timeTryFrom now with
        | none => simp only [ht]
        | some t =>
          simp only [ht]
          cases server_name with
          | IpAddress addr => rfl
          | DnsName dns =>
            cases hd : env.dnsNameTryFromAsciiStr dns with
            | none => simp only [hd]
            | some dref =>
              simp only [hd]
              cases hv : env.verifyIsValidTlsServerCert certH SUPPORTED_SIG_ALGS
                  troots chain t with
              | error e => simp only [hv]
              | ok u =>
                simp only [hv]
                cases hn : env.verifyIsValidForDnsName certH dref with
                | error e => simp only [hn]
                | ok v => simp only [hn]

/-- Modelled from the spec: the external chain-verification capability is
restricted to the supplied supported-signature-algorithm set and rejects a
certificate whose signature algorithm lies outside it with
`UnsupportedSignatureAlgorithm` (spec sections 4.4 step 5 and 8); the
concrete validator lives in the external webpki crate.  `sigAlgOf` reads
the signature algorithm out of the certificate bytes. -/
def chainVerifyBySigAlg (sigAlgOf : List Nat → Option SignatureAlgorithm)
    (ee : List Nat) (algs : List SignatureAlgorithm)
    (_troots _chain : List (List Nat)) (_t : Nat) : Except WebpkiError Unit :=
  match sigAlgOf ee with
  | none => .error .BadDer
  | some a => if a ∈ algs then .ok () else .error .UnsupportedSignatureAlgorithm

/-- C7: with chain verification modelled as the supported-set membership
check, a certificate whose signature algorithm is outside the fixed set
(ECDSA-P256-SHA256 and Ed25519 only) is rejected by both verifiers with
`InvalidCertificateSignatureType`, even though its public key equals the
expected descriptor. -/
theorem unsupported_sig_alg_rejected (env : PkiEnv)
    (sigAlgOf : List Nat → Option SignatureAlgorithm)
    (self : Psk) (end_entity : List Nat) (intermediates : List (List Nat))
    (scts : List (List Nat)) (ocsp : List Nat) (now : Int)
    (rem : List Nat) (cert : X509Certificate) (t : Nat)
    (a : SignatureAlgorithm) (dns dref : String)
    (hcl : env.verifyIsValidTlsClientCert = chainVerifyBySigAlg sigAlgOf)
    (hsv : env.verifyIsValidTlsServerCert = chainVerifyBySigAlg sigAlgOf)
    (hparse : env.x509CertFromDer end_entity = some (rem, cert))
    (hkey : cert.public_key = self.spki)
    (hee : env.endEntityTryFrom end_entity = .ok ())
    (hroot : env.trustAnchorTryFromCertDer end_entity = .ok ())
    (htime : env.timeTryFrom now = some t)
    (hdns : env.dnsNameTryFromAsciiStr dns = some dref)
    (halg : sigAlgOf end_entity = some a)
    (hnot : a ∉ SUPPORTED_SIG_ALGS) :
    SUPPORTED_SIG_ALGS
      = [SignatureAlgorithm.ECDSA_P256_SHA256, SignatureAlgorithm.ED25519] ∧
    verify_client_cert env self end_entity intermediates now
      = .error .InvalidCertificateSignatureType ∧
    (verify_server_cert env self end_entity intermediates (.DnsName dns)
        scts ocsp now).1 = .error .InvalidCertificateSignatureType := by
  have hcond : ¬ cert.public_key ≠ self.spki := by simp [hkey]
  refine ⟨rfl, ?_, ?_⟩
  · simp only [verify_client_cert, hparse, if_neg hcond,
      prepare_for_self_signed, hee, hroot, htime, hcl,
      chainVerifyBySigAlg, halg, if_neg hnot, pki_error]
  · simp only [verify_server_cert, hparse, if_neg hcond,
      prepare_for_self_signed, hee, hroot, htime, hdns, hsv,
      chainVerifyBySigAlg, halg, if_neg hnot, pki_error]

/-- A signature-algorithm reader that reports RSA PKCS#1 SHA-256 for every
certificate, for the C7 witness. -/
def sigAlgRSA (_ : List Nat) : Option SignatureAlgorithm :=
  some .RSA_PKCS1_2048_8192_SHA256

/-- Witness for C7: an RSA-PKCS1-SHA256-signed certificate with the expected
key is rejected with `InvalidCertificateSignatureType`. -/
theorem unsupported_sig_alg_rejected_witness :
    verify_client_cert
        { envEx with verifyIsValidTlsClientCert := chainVerifyBySigAlg sigAlgRSA,
                     verifyIsValidTlsServerCert := chainVerifyBySigAlg sigAlgRSA }
        pskEx [9] [] 5
      = .error .InvalidCertificateSignatureType :=
  (unsupported_sig_alg_rejected
    { envEx with verifyIsValidTlsClientCert := chainVerifyBySigAlg sigAlgRSA,
                 verifyIsValidTlsServerCert := chainVerifyBySigAlg sigAlgRSA }
    sigAlgRSA pskEx [9] [] [] [] 5 [] certEx 5 .RSA_PKCS1_2048_8192_SHA256
    "a" "a" rfl rfl rfl rfl rfl rfl (by decide) (by decide) rfl
    (by decide)).2.1

/-- C8: when the supplied time fails to convert to the external time
representation, both verifiers fail with `FailedToGetCurrentTime`; this
error is distinct from every certificate-validity failure, since the error
mapper never produces it (in particular not for `CertExpired`). -/
theorem time_conversion_failure (env : PkiEnv) (self : Psk)
    (end_entity : List Nat) (intermediates : List (List Nat))
    (server_name : ServerName) (scts : List (List Nat)) (ocsp : List Nat)
    (now : Int) (rem : List Nat) (cert : X509Certificate)
    (hparse : env.x509CertFromDer end_entity = some (rem, cert))
    (hkey : cert.public_key = self.spki)
    (hee : env.endEntityTryFrom end_entity = .ok ())
    (hroot : env.trustAnchorTryFromCertDer end_entity = .ok ())
    (htime : env.timeTryFrom now = none) :
    verify_client_cert env self end_entity intermediates now
      = .error .FailedToGetCurrentTime ∧
    (verify_server_cert env self end_entity intermediates server_name
        scts ocsp now).1 = .error .FailedToGetCurrentTime ∧
    ∀ e : WebpkiError, pki_error e ≠ .FailedToGetCurrentTime := by
  have hcond : ¬ cert.public_key ≠ self.spki := by simp [hkey]
  refine ⟨?_, ?_, ?_⟩
  · simp only [verify_client_cert, hparse, if_neg hcond,
      prepare_for_self_signed, hee, hroot, htime]
  · simp only [verify_server_cert, hparse, if_neg hcond,
      prepare_for_self_signed, hee, hroot, htime]
  · intro e
    cases e <;> simp [pki_error]

/-- Witness for C8: a pre-epoch time fails with the clock error. -/
theorem time_conversion_failure_witness :
    verify_client_cert envEx pskEx [9] [] (-1)
      = .error .FailedToGetCurrentTime :=
  (time_conversion_failure envEx pskEx [9] [] (.DnsName "a") [] [] (-1)
    [] certEx rfl rfl rfl rfl (by decide)).1

/-- C9: the capability flags are constant on every verifier instance:
client authentication is always offered, always mandatory, and no root
subjects are advertised. -/
theorem client_auth_capability_flags (p : Psk) :
    offer_client_auth p = true ∧
    client_auth_mandatory p = some true ∧
    client_auth_root_subjects p = none :=
  ⟨rfl, rfl, rfl⟩

/-- C10: the claimed-name form check precedes chain verification: with the
earlier steps passing and server-usage chain verification failing on these
very inputs (hypothesis `hchain`), a non-DNS identity or an unparsable DNS
name still yields `UnsupportedNameType`, not the chain-validation error. -/
theorem name_check_precedes_chain_verification (env : PkiEnv) (self : Psk)
    (end_entity : List Nat) (intermediates : List (List Nat))
    (scts : List (List Nat)) (ocsp : List Nat) (now : Int)
    (rem : List Nat) (cert : X509Certificate) (t : Nat) (e : WebpkiError)
    (hparse : env.x509CertFromDer end_entity = some (rem, cert))
    (hkey : cert.public_key = self.spki)
    (hee : env.endEntityTryFrom end_entity = .ok ())
    (hroot : env.trustAnchorTryFromCertDer end_entity = .ok ())
    (htime : env.timeTryFrom now = some t)
    (hchain : env.verifyIsValidTlsServerCert end_entity SUPPORTED_SIG_ALGS
        [end_entity] intermediates t = .error e) :
    (∀ addr, (verify_server_cert env self end_entity intermediates
        (.IpAddress addr) scts ocsp now).1 = .error .UnsupportedNameType) ∧
    (∀ dns, env.dnsNameTryFromAsciiStr dns = none →
      (verify_server_cert env self end_entity intermediates
        (.DnsName dns) scts ocsp now).1 = .error .UnsupportedNameType) := by
  have hcond : ¬ cert.public_key ≠ self.spki := by simp [hkey]
  constructor
  · intro addr
    simp only [verify_server_cert, hparse, if_neg hcond,
      prepare_for_self_signed, hee, hroot, htime]
  · intro dns hdns
    simp only [verify_server_cert, hparse, if_neg hcond,
      prepare_for_self_signed, hee, hroot, htime, hdns]

/-- Witness for C10: with chain verification failing with `UnknownIssuer`
on exactly the inputs of the call, an IP-address identity still yields
`UnsupportedNameType`. -/
theorem name_check_precedes_chain_verification_witness :
    (verify_server_cert
        { envEx with
            verifyIsValidTlsServerCert := fun _ _ _ _ _ => .error .UnknownIssuer }
        pskEx [9] [] (.IpAddress "10.0.0.1") [] [] 5).1
      = .error .UnsupportedNameType :=
  (name_check_precedes_chain_verification
    { envEx with
        verifyIsValidTlsServerCert := fun _ _ _ _ _ => .error .UnknownIssuer }
    pskEx [9] [] [] [] 5 [] certEx 5 .UnknownIssuer
    rfl rfl rfl rfl (by decide) rfl).1 "10.0.0.1"

end Rccheck
